import Mathlib

/-!
Verification development for the Multiagent-RL pacman module.

The definitions below are a shallow embedding of `pacman/agents.py`:
the adapter (environment-side proxy) agents, the controller agents and
the dispatch logic of their `choose_action` methods.  Randomness
(`random.randrange`, `random.choice`) is modelled by passing explicit
seeds; network communication is modelled by passing the controller's
reply as an argument.  Components of the repository that are imported
by `agents.py` but whose code is not part of the sources here
(`learning.py`, `behaviors.py`, `features.py`, the berkeley game
engine, `communication.py`) are modelled from the specification and
are marked as such in their doc comments.
-/

namespace MultiagentRL

/-- The five primitive directions of the game (`berkeley.game.Directions`). -/
inductive Direction
  | north
  | south
  | east
  | west
  | stop
deriving DecidableEq, Repr

/-- `GHOST_ACTIONS` from `agents.py`. -/
def GHOST_ACTIONS : List Direction :=
  [Direction.north, Direction.south, Direction.east, Direction.west]

/-- `PACMAN_ACTIONS = GHOST_ACTIONS + [Directions.STOP]` from `agents.py`. -/
def PACMAN_ACTIONS : List Direction := GHOST_ACTIONS ++ [Direction.stop]

/-- `PACMAN_INDEX` from `agents.py`. -/
def PACMAN_INDEX : Nat := 0

/-- Python `random.randrange(lo, hi)` on integers, for `lo < hi`, driven by an
explicit seed: returns `lo + (seed mod (hi - lo))`, a value in `[lo, hi)`. -/
def randrange_model (lo hi : Int) (seed : Nat) : Int :=
  lo + ((seed : Int) % (hi - lo))

/-- `AdapterAgent.__noise_error__` from `agents.py`:
`random.randrange(-NOISE, NOISE + 1)` with the global noise bound `B`
(`NOISE`) passed explicitly, and the random draw driven by a seed. -/
def noise_error (B : Nat) (seed : Nat) : Int :=
  randrange_model (-(B : Int)) ((B : Int) + 1) seed

/-- Python `random.choice(l)` driven by an explicit seed: some element of `l`
when `l` is nonempty, `none` when `l` is empty (Python raises `IndexError`). -/
def randomChoice (l : List Direction) (k : Nat) : Option Direction :=
  l.get? (k % l.length)

/-- Role of an adapter agent: decides which subclass overrides
(`PacmanAdapterAgent` or `GhostAdapterAgent`) are in effect. -/
inductive Role
  | pacman
  | ghost
deriving DecidableEq, Repr

/-- A client object handed to the `AdapterAgent` constructor: either an
instance of `ZMQMessengerBase` or any other object. -/
inductive Client
  | zmq (endpoint : Nat)
  | other (tag : Nat)
deriving DecidableEq, Repr

/-- Python `isinstance(client, ZMQMessengerBase)`. -/
def isZMQMessengerBase : Client → Bool
  | Client.zmq _ => true
  | Client.other _ => false

/-- The mutable attributes of an `AdapterAgent` instance.  The `client`
object itself is not stored: communication is modelled by passing replies
explicitly.  `previous_score` is first assigned in `start_game` /
`create_state_message` in Python; it carries `start_game`'s value 0 here.
`invalid_action` is first assigned in `getAction`; it carries `false` here. -/
structure AdapterAgentState where
  agent_id : Nat
  role : Role
  previous_action : Direction
  previous_score : Int
  test_mode : Bool
  invalid_action : Bool
deriving DecidableEq, Repr

/-- `AdapterAgent.__init__` from `agents.py`: raises `ValueError` when the
client is not a `ZMQMessengerBase` instance, otherwise sets
`previous_action = Directions.STOP` and `test_mode = False`.  The dynamic
class of `self` is the `role` argument. -/
def AdapterAgent.init (role : Role) (agent_id : Nat) (client : Client) :
    Except String AdapterAgentState :=
  if ¬ isZMQMessengerBase client then Except.error "Invalid client"
  else Except.ok
    { agent_id := agent_id
      role := role
      previous_action := Direction.stop
      previous_score := 0
      test_mode := false
      invalid_action := false }

/-- `PacmanAdapterAgent.__init__`: the superclass constructor with
`agent_id = PACMAN_INDEX`. -/
def PacmanAdapterAgent.init (client : Client) : Except String AdapterAgentState :=
  AdapterAgent.init Role.pacman PACMAN_INDEX client

/-- `GhostAdapterAgent.__init__`: the superclass constructor followed by
`self.previous_action = Directions.NORTH`. -/
def GhostAdapterAgent.init (agent_id : Nat) (client : Client) :
    Except String AdapterAgentState :=
  (AdapterAgent.init Role.ghost agent_id client).map
    fun a => { a with previous_action := Direction.north }

/-- The environment snapshot the adapter reads (the berkeley `GameState`
interface used by `create_state_message`): positions in the environment's
native `(x, y)` convention, boolean food and wall grids, per-agent scared
timers, the score, and the legal-action list per agent id. -/
structure GameState where
  pacmanPosition : Int × Int
  ghostPositions : List (Int × Int)
  food : List (List Bool)
  walls : List (List Bool)
  scaredTimers : List Int
  score : Int
  legalActions : Nat → List Direction

/-- The `StateMessage` built by `AdapterAgent.create_state_message`. -/
structure StateMessage where
  agent_id : Nat
  agent_positions : List (Nat × (Int × Int))
  food_positions : List (Int × Int)
  fragile_agents : List (Nat × ℚ)
  wall_positions : List (Int × Int)
  legal_actions : List Direction
  reward : Int
  executed_action : Direction
  test_mode : Bool

/-- The `for id_, pos in enumerate(state.getGhostPositions())` loop of
`create_state_message`: entry `id_ + 1` is the axis-swapped position with an
independent noise draw added to each coordinate.  The loop consumes two
noise seeds per ghost, in order. -/
def ghostEntries (B : Nat) (seeds : Nat → Nat) :
    Nat → List (Int × Int) → List (Nat × (Int × Int))
  | _, [] => []
  | i, pos :: rest =>
      (i + 1, (pos.2 + noise_error B (seeds (2 * i)),
               pos.1 + noise_error B (seeds (2 * i + 1))))
        :: ghostEntries B seeds (i + 1) rest

/-- The food / wall position loops of `create_state_message`: collect `(y, x)`
for every true cell of row `x`, column `y`. -/
def gridPositions (grid : List (List Bool)) : List (Int × Int) :=
  (grid.enum.map fun xr =>
    xr.2.enum.filterMap fun yb =>
      if yb.2 then some ((yb.1 : Int), (xr.1 : Int)) else none).flatten

/-- The `fragile_agents` loop of `create_state_message`: `1.0` when the
agent's scared timer is positive, `0.0` otherwise. -/
def fragileAgents (timers : List Int) : List (Nat × ℚ) :=
  timers.enum.map fun it => (it.1, if it.2 > 0 then (1 : ℚ) else 0)

/-- `PacmanAdapterAgent.calculate_reward` and
`GhostAdapterAgent.calculate_reward`, selected by role: `current - previous`
for the hunted role, `previous - current` for the hunter role. -/
def calculate_reward (role : Role) (previous_score current_score : Int) : Int :=
  match role with
  | Role.pacman => current_score - previous_score
  | Role.ghost => previous_score - current_score

/-- `AdapterAgent.create_state_message` from `agents.py`: builds the outgoing
`StateMessage` and records `previous_score = state.getScore()`.  Returns the
message together with the updated agent. -/
def create_state_message (B : Nat) (seeds : Nat → Nat)
    (a : AdapterAgentState) (st : GameState) :
    StateMessage × AdapterAgentState :=
  ({ agent_id := a.agent_id
     agent_positions :=
       (PACMAN_INDEX, (st.pacmanPosition.2, st.pacmanPosition.1))
         :: ghostEntries B seeds 0 st.ghostPositions
     food_positions := gridPositions st.food
     fragile_agents := fragileAgents st.scaredTimers
     wall_positions := gridPositions st.walls
     legal_actions := st.legalActions a.agent_id
     reward := calculate_reward a.role a.previous_score st.score
     executed_action := a.previous_action
     test_mode := a.test_mode },
   { a with previous_score := st.score })

/-- `act_when_invalid`, by role: `PacmanAdapterAgent` defines it (always
`Directions.STOP`); `GhostAdapterAgent` only has it commented out, so the
attribute does not exist (`none` models the `AttributeError` on call). -/
def act_when_invalid : Role → Option Direction
  | Role.pacman => some Direction.stop
  | Role.ghost => none

/-- `AdapterAgent.getAction` from `agents.py`: send the state message,
record the reply's action as `previous_action`, then return the reply's
action if legal, otherwise `act_when_invalid`.  The controller's reply is
the `reply` argument; a missing `act_when_invalid` attribute is an error. -/
def getAction (B : Nat) (seeds : Nat → Nat) (a : AdapterAgentState)
    (st : GameState) (reply : Direction) :
    Except String (Direction × AdapterAgentState) :=
  let a1 := (create_state_message B seeds a st).2
  let a2 := { a1 with previous_action := reply }
  if reply ∉ st.legalActions a.agent_id then
    match act_when_invalid a.role with
    | some d => Except.ok (d, { a2 with invalid_action := true })
    | none => Except.error "AttributeError: act_when_invalid"
  else
    Except.ok (reply, { a2 with invalid_action := false })

/-- `AdapterAgent.start_game`: resets `previous_score` and `previous_action`
(the handshake message itself carries no agent-state change). -/
def start_game (a : AdapterAgentState) : AdapterAgentState :=
  { a with previous_score := 0, previous_action := Direction.stop }

/-- `AdapterAgent.update`: builds and sends the state message (the reply is
ignored); the only agent-state change is the one done by
`create_state_message`. -/
def update (B : Nat) (seeds : Nat → Nat) (a : AdapterAgentState)
    (st : GameState) : StateMessage × AdapterAgentState :=
  create_state_message B seeds a st

/-- Modelled from the spec: the internal state of
`learning.QLearningWithApproximation` (`learning.py` is not among the
sources).  The weight vector is one coefficient row per behavior, one entry
per feature (spec section on the Learning Core). -/
structure QLearningState where
  weights : List (List ℚ)
  learning_rate : ℚ
  discount_factor : ℚ
  exploration_rate : ℚ
deriving DecidableEq, Repr

/-- Modelled from the spec: the linear value estimate
`Q(s, a) = sum_i weight[a, i] * feature_i(s)`. -/
def qValue (w : List ℚ) (feats : List ℚ) : ℚ :=
  ((w.zip feats).map fun p => p.1 * p.2).sum

/-- Modelled from the spec: argmax over the behavior indices of `Q(s, a)`,
ties broken by the fixed behavior ordering (earliest index wins). -/
def argmaxQ (weights : List (List ℚ)) (feats : List ℚ) : Nat :=
  let vals := weights.map fun w => qValue w feats
  (vals.enum.foldl (fun best cur => if cur.2 > best.2 then cur else best)
    (0, vals.headD 0)).1

/-- Modelled from the spec: `QLearningWithApproximation.act` — with
probability `exploration_rate` (the `coin` draw) a uniformly random behavior
index (the `seed` draw), otherwise the argmax of `Q`.  It mutates nothing. -/
def QLearning.act (q : QLearningState) (feats : List ℚ) (coin : ℚ)
    (seed : Nat) : Nat :=
  if coin < q.exploration_rate then seed % q.weights.length
  else argmaxQ q.weights feats

/-- Replace the row at index `i` through `f`, leaving the rest unchanged. -/
def modifyAt (f : List ℚ → List ℚ) : Nat → List (List ℚ) → List (List ℚ)
  | _, [] => []
  | 0, w :: rest => f w :: rest
  | n + 1, w :: rest => w :: modifyAt f n rest

/-- Modelled from the spec: `QLearningWithApproximation.learn` — the one-step
temporal-difference update of the previous behavior's weight row (the core's
stored previous-state feature vector is represented by `feats`).  Only the
weight vector changes. -/
def QLearning.learn (q : QLearningState) (feats : List ℚ) (prev : Nat)
    (reward : ℚ) : QLearningState :=
  let maxQ := (q.weights.map fun w => qValue w feats).foldl max 0
  let delta := reward + q.discount_factor * maxQ
    - qValue (q.weights.getD prev []) feats
  { q with
    weights := modifyAt
      (fun w => (w.zip feats).map fun p => p.1 + q.learning_rate * delta * p.2)
      prev q.weights }

/-- The state object the controller-side agents receive (`communication.py`
is not among the sources): the iteration counter read by the learning-rate
schedule and, modelled from the spec, the feature vector evaluated on it. -/
structure ControllerState where
  iteration : Nat
  feats : List ℚ

/-- The mutable attributes shared by `BehaviorLearningPacmanAgent` and
`BehaviorLearningGhostAgent`.  Behaviors are identified by their index in the
agent's behavior list; `behavior_count` is indexed the same way. -/
structure BLAgent where
  K : ℚ
  exploration_rate : ℚ
  learning : QLearningState
  previous_behavior : Nat
  behavior_count : List Nat
  test_mode : Bool
deriving DecidableEq, Repr

/-- Increment the counter at index `i`. -/
def incrAt : Nat → List Nat → List Nat
  | _, [] => []
  | 0, c :: rest => (c + 1) :: rest
  | n + 1, c :: rest => c :: incrAt n rest

/-- `BehaviorLearningPacmanAgent.enable_learn_mode`. -/
def BehaviorLearningPacmanAgent.enable_learn_mode (a : BLAgent) : BLAgent :=
  { a with
    test_mode := false
    learning := { a.learning with exploration_rate := a.exploration_rate } }

/-- `BehaviorLearningPacmanAgent.enable_test_mode`. -/
def BehaviorLearningPacmanAgent.enable_test_mode (a : BLAgent) : BLAgent :=
  { a with
    test_mode := true
    learning := { a.learning with exploration_rate := 0 } }

/-- `BehaviorLearningPacmanAgent.__init__`: `K = 1.0`,
`exploration_rate = 0.1`, a learning core with `learning_rate = 0.1` and
`discount_factor = 0.9`, four behaviors (Eat, Flee, Seek, Pursue) with their
usage counters reset, `previous_behavior` the first behavior and
`test_mode = False`.  The initial weight vector of the core (`learning.py`,
not among the sources) is the `w` parameter. -/
def BehaviorLearningPacmanAgent.init (w : List (List ℚ)) : BLAgent :=
  { K := 1
    exploration_rate := 1 / 10
    learning :=
      { weights := w
        learning_rate := 1 / 10
        discount_factor := 9 / 10
        exploration_rate := 1 / 10 }
    previous_behavior := 0
    behavior_count := [0, 0, 0, 0]
    test_mode := false }

/-- The final dispatch of `BehaviorLearningPacmanAgent.choose_action`
(lines 697-702 of `agents.py`): the suggestion if legal, else `STOP` if
there are no legal actions, else a random legal action. -/
def BehaviorLearningPacmanAgent.dispatch (legal_actions : List Direction)
    (suggested_action : Direction) (k : Nat) : Option Direction :=
  if suggested_action ∈ legal_actions then some suggested_action
  else if legal_actions = [] then some Direction.stop
  else randomChoice legal_actions k

/-- `BehaviorLearningPacmanAgent.choose_action`: switch modes from `test`,
learn (with the annealed learning rate) unless in test mode, consult `act`,
record the chosen behavior and its usage count, evaluate the behavior
(`behaviorEval`, the external `behaviors.py` code) and dispatch. -/
def BehaviorLearningPacmanAgent.choose_action (a : BLAgent)
    (st : ControllerState) (reward : ℚ) (legal_actions : List Direction)
    (test : Bool) (behaviorEval : Nat → List Direction → Direction)
    (coin : ℚ) (seed k : Nat) : Option Direction × BLAgent :=
  let a1 := if test then BehaviorLearningPacmanAgent.enable_test_mode a
            else BehaviorLearningPacmanAgent.enable_learn_mode a
  let a2 :=
    if a1.test_mode = false then
      let l1 := { a1.learning with
                  learning_rate := a1.K / (a1.K + (st.iteration : ℚ)) }
      { a1 with
        learning := QLearning.learn l1 st.feats a1.previous_behavior reward }
    else a1
  let behavior := QLearning.act a2.learning st.feats coin seed
  let a3 := { a2 with previous_behavior := behavior }
  let suggested_action := behaviorEval behavior legal_actions
  let a4 := { a3 with behavior_count := incrAt behavior a3.behavior_count }
  (BehaviorLearningPacmanAgent.dispatch legal_actions suggested_action k, a4)

/-- `BehaviorLearningGhostAgent.enable_learn_mode`. -/
def BehaviorLearningGhostAgent.enable_learn_mode (a : BLAgent) : BLAgent :=
  { a with
    test_mode := false
    learning := { a.learning with exploration_rate := a.exploration_rate } }

/-- `BehaviorLearningGhostAgent.enable_test_mode`. -/
def BehaviorLearningGhostAgent.enable_test_mode (a : BLAgent) : BLAgent :=
  { a with
    test_mode := true
    learning := { a.learning with exploration_rate := 0 } }

/-- `BehaviorLearningGhostAgent.__init__`: as the pacman variant but with
three behaviors (Flee, Seek, Pursue). -/
def BehaviorLearningGhostAgent.init (w : List (List ℚ)) : BLAgent :=
  { K := 1
    exploration_rate := 1 / 10
    learning :=
      { weights := w
        learning_rate := 1 / 10
        discount_factor := 9 / 10
        exploration_rate := 1 / 10 }
    previous_behavior := 0
    behavior_count := [0, 0, 0]
    test_mode := false }

/-- The final dispatch of `BehaviorLearningGhostAgent.choose_action`
(lines 825-830 of `agents.py`). -/
def BehaviorLearningGhostAgent.dispatch (legal_actions : List Direction)
    (suggested_action : Direction) (k : Nat) : Option Direction :=
  if suggested_action ∈ legal_actions then some suggested_action
  else if legal_actions = [] then some Direction.stop
  else randomChoice legal_actions k

/-- `BehaviorLearningGhostAgent.choose_action` (textually identical to the
pacman variant in `agents.py`). -/
def BehaviorLearningGhostAgent.choose_action (a : BLAgent)
    (st : ControllerState) (reward : ℚ) (legal_actions : List Direction)
    (test : Bool) (behaviorEval : Nat → List Direction → Direction)
    (coin : ℚ) (seed k : Nat) : Option Direction × BLAgent :=
  let a1 := if test then BehaviorLearningGhostAgent.enable_test_mode a
            else BehaviorLearningGhostAgent.enable_learn_mode a
  let a2 :=
    if a1.test_mode = false then
      let l1 := { a1.learning with
                  learning_rate := a1.K / (a1.K + (st.iteration : ℚ)) }
      { a1 with
        learning := QLearning.learn l1 st.feats a1.previous_behavior reward }
    else a1
  let behavior := QLearning.act a2.learning st.feats coin seed
  let a3 := { a2 with previous_behavior := behavior }
  let suggested_action := behaviorEval behavior legal_actions
  let a4 := { a3 with behavior_count := incrAt behavior a3.behavior_count }
  (BehaviorLearningGhostAgent.dispatch legal_actions suggested_action k, a4)

/-- `EaterPacmanAgent.choose_action` (lines 577-584 of `agents.py`).  The
`suggested_action` argument stands for `self.eat_behavior(state,
legal_actions)`, the external `behaviors.py` computation. -/
def EaterPacmanAgent.choose_action (suggested_action : Direction)
    (legal_actions : List Direction) (k : Nat) : Option Direction :=
  if suggested_action ∈ legal_actions then some suggested_action
  else if legal_actions = [] then some Direction.stop
  else randomChoice legal_actions k

/-- `RandomPacmanAgent.choose_action`: a random legal action when one
exists, otherwise the implicit Python `None`. -/
def RandomPacmanAgent.choose_action (legal_actions : List Direction)
    (k : Nat) : Option Direction :=
  if legal_actions.length > 0 then randomChoice legal_actions k else none

/-- `RandomGhostAgent.choose_action` (textually identical to the pacman
variant in `agents.py`). -/
def RandomGhostAgent.choose_action (legal_actions : List Direction)
    (k : Nat) : Option Direction :=
  if legal_actions.length > 0 then randomChoice legal_actions k else none

/-! ## Helper lemmas -/

theorem noise_error_ge (B s : Nat) : -(B : Int) ≤ noise_error B s := by
  unfold noise_error randrange_model
  have h0 : (0 : Int) ≤ (s : Int) % ((B : Int) + 1 - -(B : Int)) :=
    Int.emod_nonneg _ (by omega)
  omega

theorem noise_error_le (B s : Nat) : noise_error B s ≤ (B : Int) := by
  unfold noise_error randrange_model
  have h1 : (s : Int) % ((B : Int) + 1 - -(B : Int)) < (B : Int) + 1 - -(B : Int) :=
    Int.emod_lt_of_pos _ (by omega)
  omega

theorem noise_error_zero (s : Nat) : noise_error 0 s = 0 := by
  have h0 := noise_error_ge 0 s
  have h1 := noise_error_le 0 s
  simp only [Nat.cast_zero, neg_zero] at h0 h1
  omega

theorem randomChoice_mem (l : List Direction) (k : Nat) (h : l ≠ []) :
    ∃ y, y ∈ l ∧ randomChoice l k = some y := by
  have hlen : 0 < l.length := List.length_pos.mpr h
  have hk : k % l.length < l.length := Nat.mod_lt _ hlen
  refine ⟨l.get ⟨k % l.length, hk⟩, List.get_mem _ _ _, ?_⟩
  unfold randomChoice
  exact List.get?_eq_get hk

theorem ghostEntries_get (B : Nat) (seeds : Nat → Nat)
    (l : List (Int × Int)) :
    ∀ (i j : Nat) (pos : Int × Int), l.get? i = some pos →
      (ghostEntries B seeds j l).get? i =
        some (j + i + 1,
          (pos.2 + noise_error B (seeds (2 * (j + i))),
           pos.1 + noise_error B (seeds (2 * (j + i) + 1)))) := by
  induction l with
  | nil => intro i j pos h; simp at h
  | cons p rest ih =>
    intro i j pos h
    cases i with
    | zero =>
      rw [List.get?_cons_zero] at h
      cases h
      simp [ghostEntries]
    | succ i =>
      rw [List.get?_cons_succ] at h
      have h2 := ih i (j + 1) pos h
      rw [show j + 1 + i = j + (i + 1) from by omega] at h2
      simpa [ghostEntries] using h2

/-- The outgoing message's `executed_action` field is the agent's
`previous_action` attribute at encoding time. -/
theorem executed_action_eq (B : Nat) (seeds : Nat → Nat)
    (a : AdapterAgentState) (st : GameState) :
    (create_state_message B seeds a st).1.executed_action =
      a.previous_action := rfl

/-- Anatomy of a successful `getAction`: the resulting agent records the
reply as `previous_action` and the state's score as `previous_score`, and
the returned direction is the reply itself whenever the reply was legal. -/
theorem getAction_ok (B : Nat) (seeds : Nat → Nat) (a : AdapterAgentState)
    (st : GameState) (reply d : Direction) (a' : AdapterAgentState)
    (h : getAction B seeds a st reply = Except.ok (d, a')) :
    a'.previous_action = reply ∧ a'.previous_score = st.score ∧
      (reply ∈ st.legalActions a.agent_id → d = reply) := by
  unfold getAction at h
  by_cases hm : reply ∈ st.legalActions a.agent_id
  · rw [if_neg (not_not_intro hm)] at h
    simp only [Except.ok.injEq, Prod.mk.injEq] at h
    obtain ⟨hd, ha⟩ := h
    subst hd; subst ha
    exact ⟨rfl, rfl, fun _ => rfl⟩
  · rw [if_pos hm] at h
    cases hrole : a.role with
    | pacman =>
      rw [hrole] at h
      simp only [act_when_invalid, Except.ok.injEq, Prod.mk.injEq] at h
      obtain ⟨hd, ha⟩ := h
      subst hd; subst ha
      exact ⟨rfl, rfl, fun hmem => absurd hmem hm⟩
    | ghost =>
      rw [hrole] at h
      simp only [act_when_invalid] at h
      exact absurd h (fun hc => Except.noConfusion hc)

/-! ## Claim theorems -/

/-- Claim C3: for every legal-action list `L` and every suggested action `x`
produced by a Behavior, the dispatch in `choose_action` returns `x` if
`x ∈ L`, returns `STOP` if `L` is empty, and otherwise returns some element
of `L` — identically in the hunted-role learning agent, the hunter-role
learning agent and the eater agent. -/
theorem claim_C3_behavior_dispatch (L : List Direction) (x : Direction)
    (k : Nat) :
    (EaterPacmanAgent.choose_action x L k =
        BehaviorLearningPacmanAgent.dispatch L x k ∧
      BehaviorLearningPacmanAgent.dispatch L x k =
        BehaviorLearningGhostAgent.dispatch L x k) ∧
    (x ∈ L → BehaviorLearningPacmanAgent.dispatch L x k = some x) ∧
    (L = [] →
      BehaviorLearningPacmanAgent.dispatch L x k = some Direction.stop) ∧
    (x ∉ L → L ≠ [] →
      ∃ y, y ∈ L ∧ BehaviorLearningPacmanAgent.dispatch L x k = some y) := by
  refine ⟨⟨rfl, rfl⟩, ?_, ?_, ?_⟩
  · intro hx
    unfold BehaviorLearningPacmanAgent.dispatch
    rw [if_pos hx]
  · intro hL
    subst hL
    simp [BehaviorLearningPacmanAgent.dispatch]
  · intro hx hL
    obtain ⟨y, hy, hchoice⟩ := randomChoice_mem L k hL
    refine ⟨y, hy, ?_⟩
    unfold BehaviorLearningPacmanAgent.dispatch
    rw [if_neg hx, if_neg hL]
    exact hchoice

/-- Witness for C3: with `L = [NORTH]`, a legal suggestion is returned
as-is, and an illegal suggestion (`EAST`) is replaced by an element of
`L`. -/
theorem claim_C3_behavior_dispatch_witness :
    (Direction.north ∈ [Direction.north] ∧
      BehaviorLearningPacmanAgent.dispatch [Direction.north] Direction.north 0
        = some Direction.north) ∧
    (Direction.east ∉ [Direction.north] ∧
      ∃ y, y ∈ [Direction.north] ∧
        BehaviorLearningPacmanAgent.dispatch [Direction.north] Direction.east 0
          = some y) :=
  ⟨⟨by decide,
    (claim_C3_behavior_dispatch [Direction.north] Direction.north 0).2.1
      (by decide)⟩,
   ⟨by decide,
    (claim_C3_behavior_dispatch [Direction.north] Direction.east 0).2.2.2
      (by decide) (by decide)⟩⟩

/-- Claim C4: for every current score `c` and previously recorded score `p`,
the hunted-role adapter's `calculate_reward` returns `c - p` and the
hunter-role adapter's returns `p - c`; in particular with `p = 6`, `c = 10`
the hunted reward is `4` and the hunter reward is `-4`. -/
theorem claim_C4_reward_signs :
    (∀ p c : Int, calculate_reward Role.pacman p c = c - p ∧
        calculate_reward Role.ghost p c = p - c) ∧
    calculate_reward Role.pacman 6 10 = 4 ∧
    calculate_reward Role.ghost 6 10 = -4 :=
  ⟨fun _ _ => ⟨rfl, rfl⟩, by decide, by decide⟩

/-- Claim C8: the `AdapterAgent` constructor raises an error exactly when the
supplied client is not a `ZMQMessengerBase` instance; on success the
constructed agent has `previous_action = STOP` and `test_mode = False`. -/
theorem claim_C8_constructor (r : Role) (idv : Nat) (c : Client) :
    (AdapterAgent.init r idv c = Except.error "Invalid client" ↔
      isZMQMessengerBase c = false) ∧
    (isZMQMessengerBase c = true →
      AdapterAgent.init r idv c = Except.ok
        { agent_id := idv, role := r, previous_action := Direction.stop,
          previous_score := 0, test_mode := false,
          invalid_action := false }) := by
  cases c with
  | zmq e =>
    refine ⟨⟨fun h => ?_, fun h => by simp [isZMQMessengerBase] at h⟩,
      fun _ => rfl⟩
    exact absurd h (fun hc => Except.noConfusion hc)
  | other t =>
    exact ⟨⟨fun _ => rfl, fun _ => rfl⟩,
      fun h => by simp [isZMQMessengerBase] at h⟩

/-- Witness for C8: constructing with a `ZMQMessengerBase` client succeeds
with `previous_action = STOP` and `test_mode = False`. -/
theorem claim_C8_constructor_witness :
    isZMQMessengerBase (Client.zmq 0) = true ∧
    AdapterAgent.init Role.pacman 0 (Client.zmq 0) = Except.ok
      { agent_id := 0, role := Role.pacman,
        previous_action := Direction.stop, previous_score := 0,
        test_mode := false, invalid_action := false } :=
  ⟨rfl, (claim_C8_constructor Role.pacman 0 (Client.zmq 0)).2 rfl⟩

/-- A concrete game snapshot used to instantiate theorems: every agent has
`[NORTH, STOP]` as legal actions and the score is 5. -/
def gsA : GameState :=
  { pacmanPosition := (1, 2)
    ghostPositions := [(5, 7)]
    food := [[true, false]]
    walls := [[false, true]]
    scaredTimers := [0, 3]
    score := 5
    legalActions := fun _ => [Direction.north, Direction.stop] }

/-- A concrete hunted-role adapter agent. -/
def padA : AdapterAgentState :=
  { agent_id := 0, role := Role.pacman, previous_action := Direction.stop,
    previous_score := 0, test_mode := false, invalid_action := false }

/-- The agent `padA` after a `getAction` on `gsA` whose reply was the legal
action `NORTH`. -/
def padA1 : AdapterAgentState :=
  { agent_id := 0, role := Role.pacman, previous_action := Direction.north,
    previous_score := 5, test_mode := false, invalid_action := false }

/-- The agent `padA` after a `getAction` on `gsA` whose reply was the
illegal action `EAST`. -/
def padA1east : AdapterAgentState :=
  { agent_id := 0, role := Role.pacman, previous_action := Direction.east,
    previous_score := 5, test_mode := false, invalid_action := true }

/-- A concrete hunter-role adapter agent. -/
def gadA : AdapterAgentState :=
  { agent_id := 1, role := Role.ghost, previous_action := Direction.north,
    previous_score := 0, test_mode := false, invalid_action := false }

/-- Claim C5: for every noise bound `B ≥ 0` each encoded opponent coordinate
lies within `[v - B, v + B]` of the true (axis-swapped) coordinate `v`, with
`B = 0` it equals `v` exactly, and the hunted agent's own encoded position is
never perturbed for any `B`. -/
theorem claim_C5_noise (B : Nat) (seeds : Nat → Nat) (a : AdapterAgentState)
    (st : GameState) (i : Nat) (pos : Int × Int)
    (h : st.ghostPositions.get? i = some pos) :
    (create_state_message B seeds a st).1.agent_positions.get? 0 =
      some (PACMAN_INDEX, (st.pacmanPosition.2, st.pacmanPosition.1)) ∧
    ∃ py px,
      (create_state_message B seeds a st).1.agent_positions.get? (i + 1) =
        some (i + 1, (py, px)) ∧
      pos.2 - (B : Int) ≤ py ∧ py ≤ pos.2 + (B : Int) ∧
      pos.1 - (B : Int) ≤ px ∧ px ≤ pos.1 + (B : Int) ∧
      (B = 0 → py = pos.2 ∧ px = pos.1) := by
  refine ⟨rfl, pos.2 + noise_error B (seeds (2 * i)),
    pos.1 + noise_error B (seeds (2 * i + 1)), ?_, ?_, ?_, ?_, ?_, ?_⟩
  · have hl : (create_state_message B seeds a st).1.agent_positions =
        (PACMAN_INDEX, (st.pacmanPosition.2, st.pacmanPosition.1))
          :: ghostEntries B seeds 0 st.ghostPositions := rfl
    rw [hl, List.get?_cons_succ]
    have hg := ghostEntries_get B seeds st.ghostPositions i 0 pos h
    simpa using hg
  · have := noise_error_ge B (seeds (2 * i))
    omega
  · have := noise_error_le B (seeds (2 * i))
    omega
  · have := noise_error_ge B (seeds (2 * i + 1))
    omega
  · have := noise_error_le B (seeds (2 * i + 1))
    omega
  · intro hB
    subst hB
    rw [noise_error_zero, noise_error_zero]
    omega

/-- Witness for C5: with `B = 1` and the single opponent at `(5, 7)`, the
hunted agent's own encoded position is exact and the encoded opponent
coordinates are within distance 1 of the swapped true position `(7, 5)`. -/
theorem claim_C5_noise_witness :
    (create_state_message 1 (fun n => n) padA gsA).1.agent_positions.get? 0 =
      some (PACMAN_INDEX, (2, 1)) ∧
    ∃ py px,
      (create_state_message 1 (fun n => n) padA gsA).1.agent_positions.get? 1 =
        some (1, (py, px)) ∧
      7 - ((1 : Nat) : Int) ≤ py ∧ py ≤ 7 + ((1 : Nat) : Int) ∧
      5 - ((1 : Nat) : Int) ≤ px ∧ px ≤ 5 + ((1 : Nat) : Int) ∧
      ((1 : Nat) = 0 → py = 7 ∧ px = 5) :=
  claim_C5_noise 1 (fun n => n) padA gsA 0 (5, 7) rfl

/-- Claim C6: calling a behavior-learning agent's `choose_action` with
`test = True` leaves the weight vector unchanged (learn is not invoked: the
whole learning core changes only by having its exploration rate zeroed) and
sets the exploration rate to 0 before `act` is consulted — the chosen
behavior is `act` evaluated at exploration rate 0. -/
theorem claim_C6_test_no_learn (a : BLAgent) (st : ControllerState)
    (reward : ℚ) (legal : List Direction)
    (behaviorEval : Nat → List Direction → Direction) (coin : ℚ)
    (seed k : Nat) :
    ((BehaviorLearningPacmanAgent.choose_action a st reward legal true
        behaviorEval coin seed k).2.learning =
      { a.learning with exploration_rate := 0 }) ∧
    ((BehaviorLearningPacmanAgent.choose_action a st reward legal true
        behaviorEval coin seed k).2.learning.weights = a.learning.weights) ∧
    ((BehaviorLearningPacmanAgent.choose_action a st reward legal true
        behaviorEval coin seed k).2.previous_behavior =
      QLearning.act { a.learning with exploration_rate := 0 } st.feats coin
        seed) ∧
    ((BehaviorLearningGhostAgent.choose_action a st reward legal true
        behaviorEval coin seed k).2.learning =
      { a.learning with exploration_rate := 0 }) :=
  ⟨rfl, rfl, rfl, rfl⟩

/-- Claim C7: calling a behavior-learning agent's `choose_action` with
`test = False` sets the learning rate passed to the learning core to
`K / (K + iteration)`; the constructor fixes `K = 1.0`, so `iteration = 9`
yields learning rate `1/10`. -/
theorem claim_C7_learning_rate (a : BLAgent) (st : ControllerState)
    (reward : ℚ) (legal : List Direction)
    (behaviorEval : Nat → List Direction → Direction) (coin : ℚ)
    (seed k : Nat) (w : List (List ℚ)) (feats : List ℚ) :
    ((BehaviorLearningPacmanAgent.choose_action a st reward legal false
        behaviorEval coin seed k).2.learning.learning_rate =
      a.K / (a.K + (st.iteration : ℚ))) ∧
    ((BehaviorLearningGhostAgent.choose_action a st reward legal false
        behaviorEval coin seed k).2.learning.learning_rate =
      a.K / (a.K + (st.iteration : ℚ))) ∧
    (BehaviorLearningPacmanAgent.init w).K = 1 ∧
    ((BehaviorLearningPacmanAgent.choose_action
        (BehaviorLearningPacmanAgent.init w) ⟨9, feats⟩ reward legal false
        behaviorEval coin seed k).2.learning.learning_rate = 1 / 10) := by
  refine ⟨rfl, rfl, rfl, ?_⟩
  have h : (BehaviorLearningPacmanAgent.choose_action
      (BehaviorLearningPacmanAgent.init w) ⟨9, feats⟩ reward legal false
      behaviorEval coin seed k).2.learning.learning_rate =
      (1 : ℚ) / (1 + ((9 : Nat) : ℚ)) := rfl
  rw [h]
  norm_num

/-- Claim C9: `update` leaves `previous_action` unchanged — unlike
`getAction`, which overwrites it with the reply's action — while
`previous_score` is set to the state's current score by the encoding step in
both operations. -/
theorem claim_C9_update_frame (B : Nat) (seeds : Nat → Nat)
    (a : AdapterAgentState) (st : GameState) :
    ((update B seeds a st).2.previous_action = a.previous_action ∧
      (update B seeds a st).2.previous_score = st.score) ∧
    ∀ (reply d : Direction) (a' : AdapterAgentState),
      getAction B seeds a st reply = Except.ok (d, a') →
        a'.previous_action = reply ∧ a'.previous_score = st.score := by
  refine ⟨⟨rfl, rfl⟩, fun reply d a' h => ?_⟩
  obtain ⟨h1, h2, _⟩ := getAction_ok B seeds a st reply d a' h
  exact ⟨h1, h2⟩

/-- Witness for C9: on the concrete snapshot `gsA`, a `getAction` with the
legal reply `NORTH` produces the agent `padA1`, which indeed records `NORTH`
and the score 5. -/
theorem claim_C9_update_frame_witness :
    padA1.previous_action = Direction.north ∧
    padA1.previous_score = gsA.score :=
  (claim_C9_update_frame 0 (fun _ => 0) padA gsA).2 Direction.north
    Direction.north padA1 rfl

/-- Claim C10: for every call of `RandomPacmanAgent.choose_action` or
`RandomGhostAgent.choose_action` with an empty legal-action list the result
is `None` — no direction at all, in particular not `STOP`. -/
theorem claim_C10_random_empty (k : Nat) :
    RandomPacmanAgent.choose_action [] k = none ∧
    RandomGhostAgent.choose_action [] k = none :=
  ⟨rfl, rfl⟩

/-- Counterexample to claim C1: the hunter-role adapter does not substitute
a fallback action.  `GhostAdapterAgent` only has `act_when_invalid` commented
out, so on the concrete snapshot `gsA`, where the reply `EAST` is illegal,
`getAction` propagates an attribute error instead of returning an action. -/
theorem claim_C1_counterexample :
    getAction 0 (fun _ => 0) gadA gsA Direction.east =
      Except.error "AttributeError: act_when_invalid" := rfl

/-- Claim C1 as amended: when `getAction` receives a reply whose action is
not in the state's legal-action list, the hunted-role adapter substitutes the
fallback action `STOP` and returns it; the hunter-role adapter defines no
fallback, and the call fails with an attribute error instead. -/
theorem claim_C1_fallback (B : Nat) (seeds : Nat → Nat)
    (a : AdapterAgentState) (st : GameState) (reply : Direction)
    (h : reply ∉ st.legalActions a.agent_id) :
    (a.role = Role.pacman → ∃ a', getAction B seeds a st reply =
        Except.ok (Direction.stop, a')) ∧
    (a.role = Role.ghost → getAction B seeds a st reply =
        Except.error "AttributeError: act_when_invalid") := by
  constructor
  · intro hr
    refine ⟨{ (create_state_message B seeds a st).2 with
              previous_action := reply, invalid_action := true }, ?_⟩
    simp only [getAction]
    rw [if_pos h, hr]
    rfl
  · intro hr
    simp only [getAction]
    rw [if_pos h, hr]
    rfl

/-- Witness for C1 (amended): on the concrete snapshot `gsA` with the
illegal reply `EAST`, the hunted-role adapter returns `STOP`. -/
theorem claim_C1_fallback_witness :
    Direction.east ∉ gsA.legalActions padA.agent_id ∧
    ∃ a', getAction 0 (fun _ => 0) padA gsA Direction.east =
        Except.ok (Direction.stop, a') :=
  ⟨by decide,
    (claim_C1_fallback 0 (fun _ => 0) padA gsA Direction.east (by decide)).1
      rfl⟩

/-- Counterexample to claim C2: after an illegal reply the fallback `STOP`
is what is applied to the environment, but the next `StateMessage` carries
the illegal reply `EAST` as its `executed_action`, not the applied action. -/
theorem claim_C2_counterexample :
    getAction 0 (fun _ => 0) padA gsA Direction.east =
      Except.ok (Direction.stop, padA1east) ∧
    (create_state_message 0 (fun _ => 0) padA1east gsA).1.executed_action =
      Direction.east ∧
    Direction.east ≠ Direction.stop :=
  ⟨rfl, rfl, by decide⟩

/-- Claim C2 as amended: the `executed_action` field placed into the next
`StateMessage` equals the action of the previous step's reply; this is the
action actually applied to the environment whenever that reply was legal,
but after an illegal reply it is the illegal reply itself, not the applied
fallback. -/
theorem claim_C2_executed_action (B B' : Nat) (seeds seeds' : Nat → Nat)
    (a a' : AdapterAgentState) (st st' : GameState) (reply d : Direction)
    (h : getAction B seeds a st reply = Except.ok (d, a')) :
    (create_state_message B' seeds' a' st').1.executed_action = reply ∧
    (reply ∈ st.legalActions a.agent_id → d = reply) := by
  obtain ⟨h1, _, h3⟩ := getAction_ok B seeds a st reply d a' h
  exact ⟨by rw [executed_action_eq, h1], h3⟩

/-- Witness for C2 (amended): after a `getAction` on `gsA` with the legal
reply `NORTH`, the next message encodes `NORTH` as `executed_action`, and
the applied action was that same reply. -/
theorem claim_C2_executed_action_witness :
    (create_state_message 0 (fun _ => 0) padA1 gsA).1.executed_action =
      Direction.north ∧
    (Direction.north ∈ gsA.legalActions padA.agent_id →
      Direction.north = Direction.north) :=
  claim_C2_executed_action 0 0 (fun _ => 0) (fun _ => 0) padA padA1 gsA gsA
    Direction.north Direction.north rfl

end MultiagentRL
